import Mathlib

/-!
Verification of the suds-marketo wrapper (`suds_marketo/__init__.py`), a thin
client around the Marketo SOAP API.  Python byte strings are modelled as
`List Nat` (one entry per byte); text strings that are only compared are
modelled as Lean `String`; suds structure instances are modelled either as
plain Lean structures (when only their final field contents matter) or via an
explicit heap of numbered instances (when object identity matters).
-/

set_option maxRecDepth 100000

namespace SudsMarketo

/-! ### SHA-1 and HMAC-SHA1, as used by `sign` via `hmac.new(key, msg, hashlib.sha1)` -/

/-- Truncate to a 32-bit word. -/
def w32 (n : Nat) : Nat := n % 4294967296

/-- Left-rotate a 32-bit word by `k` bits. -/
def rotl (k n : Nat) : Nat := w32 ((n <<< k) ||| (n >>> (32 - k)))

/-- Big-endian byte encoding of `n` in exactly `k` bytes. -/
def toBytesBE : Nat → Nat → List Nat
  | 0, _ => []
  | k + 1, n => toBytesBE k (n / 256) ++ [n % 256]

/-- Group bytes four at a time into big-endian 32-bit words. -/
def bytesToWords : List Nat → List Nat
  | a :: b :: c :: d :: rest => (((a * 256 + b) * 256 + c) * 256 + d) :: bytesToWords rest
  | _ => []

/-- SHA-1 message padding: append 0x80, zeros to 56 mod 64, then the 64-bit
bit length, big-endian. -/
def sha1Pad (msg : List Nat) : List Nat :=
  msg ++ [128] ++ List.replicate ((119 - (msg.length % 64)) % 64) 0
      ++ toBytesBE 8 (msg.length * 8)

/-- Split bytes into 64-byte chunks; `fuel` bounds the recursion and any
value at least the list length is enough. -/
def chunksOf64Aux : Nat → List Nat → List (List Nat)
  | 0, _ => []
  | _, [] => []
  | fuel + 1, x :: xs => ((x :: xs).take 64) :: chunksOf64Aux fuel ((x :: xs).drop 64)

/-- Split a padded message into 64-byte chunks. -/
def chunksOf64 (l : List Nat) : List (List Nat) := chunksOf64Aux l.length l

/-- Extend the 16 chunk words by `fuel` further schedule words. -/
def extendWords (w : List Nat) : Nat → List Nat
  | 0 => w
  | fuel + 1 =>
    let n := w.length
    extendWords
      (w ++ [rotl 1 ((w.getD (n - 3) 0) ^^^ (w.getD (n - 8) 0) ^^^
                     (w.getD (n - 14) 0) ^^^ (w.getD (n - 16) 0))]) fuel

structure SHA1State where
  a : Nat
  b : Nat
  c : Nat
  d : Nat
  e : Nat
deriving DecidableEq, Repr

/-- Round constant for round `i`. -/
def sha1K (i : Nat) : Nat :=
  if i < 20 then 1518500249
  else if i < 40 then 1859775393
  else if i < 60 then 2400959708
  else 3395469782

/-- Round mixing function for round `i`. -/
def sha1F (i b c d : Nat) : Nat :=
  if i < 20 then (b &&& c) ||| ((4294967295 ^^^ b) &&& d)
  else if i < 40 then b ^^^ c ^^^ d
  else if i < 60 then (b &&& c) ||| (b &&& d) ||| (c &&& d)
  else b ^^^ c ^^^ d

/-- One SHA-1 round, consuming the pair (round index, schedule word). -/
def sha1Round (st : SHA1State) (iw : Nat × Nat) : SHA1State :=
  ⟨w32 (rotl 5 st.a + sha1F iw.1 st.b st.c st.d + st.e + sha1K iw.1 + iw.2),
   st.a, rotl 30 st.b, st.c, st.d⟩

/-- Process one 64-byte chunk. -/
def processChunk (h : SHA1State) (chunk : List Nat) : SHA1State :=
  let ws := extendWords (bytesToWords chunk) 64
  let st := ws.enum.foldl sha1Round h
  ⟨w32 (h.a + st.a), w32 (h.b + st.b), w32 (h.c + st.c),
   w32 (h.d + st.d), w32 (h.e + st.e)⟩

def sha1Init : SHA1State := ⟨1732584193, 4023233417, 2562383102, 271733878, 3285377520⟩

/-- SHA-1 digest of a byte string, as 20 bytes. -/
def sha1 (msg : List Nat) : List Nat :=
  let fin := (chunksOf64 (sha1Pad msg)).foldl processChunk sha1Init
  toBytesBE 4 fin.a ++ toBytesBE 4 fin.b ++ toBytesBE 4 fin.c ++
  toBytesBE 4 fin.d ++ toBytesBE 4 fin.e

/-- HMAC-SHA1 with the standard 64-byte block size, as Python
`hmac.new(key, msg, hashlib.sha1)` computes it. -/
def hmac_sha1 (key msg : List Nat) : List Nat :=
  let k0 := if 64 < key.length then sha1 key else key
  let kp := k0 ++ List.replicate (64 - k0.length) 0
  sha1 ((kp.map (fun b => b ^^^ 92)) ++ sha1 ((kp.map (fun b => b ^^^ 54)) ++ msg))

/-- The sixteen lowercase hexadecimal digit characters. -/
def hexDigitChars : List Char := "0123456789abcdef".toList

/-- Two lowercase hex characters for one byte, as Python `%02x` formatting. -/
def byteToHex (b : Nat) : List Char :=
  [hexDigitChars.getD (b / 16 % 16) '0', hexDigitChars.getD (b % 16) '0']

/-- Lowercase hexadecimal rendering of a byte string, as `hexdigest()`. -/
def hexdigest (bs : List Nat) : List Char :=
  bs.foldr (fun b acc => byteToHex b ++ acc) []

/-- `sign(message, encryption_key)` from the source: the hex digest of the
HMAC-SHA1 of the message keyed by the encryption key, then `.lower()`. -/
def sign (message encryption_key : List Nat) : List Char :=
  (hexdigest (hmac_sha1 encryption_key message)).map Char.toLower

structure AuthHeader where
  requestSignature : List Char
  mktowsUserId : List Nat
  requestTimestamp : List Nat
deriving DecidableEq, Repr

/-- `Client.set_header`, with the RFC3339 UTC timestamp string it reads from
the clock passed in as `timestamp`: it fills the authentication header with
`sign(timestamp + user_id, encryption_key)`, the user id and the timestamp. -/
def set_header (timestamp user_id encryption_key : List Nat) : AuthHeader :=
  { requestSignature := sign (timestamp ++ user_id) encryption_key
    mktowsUserId := user_id
    requestTimestamp := timestamp }

/-! ### Dynamic member resolution (`Client.__getattribute__`) and the suds factory

Modelled from the spec: the suds library's `factory.create(name)` is not part
of this repository; per the spec it returns "a newly constructed, empty
instance" of the named structure.  We model it as allocation of a fresh
numbered instance in an explicit heap, each created empty.  An instance's
contents are its list of (field, value) assignments, newest first. -/

structure Heap where
  nextId : Nat
  contents : Nat → List (String × String)

def emptyHeap : Heap := ⟨0, fun _ => []⟩

/-- Modelled from the spec: `suds_client.factory.create` returns a newly
constructed empty instance; here, a fresh id mapped to empty contents. -/
def factoryCreate (h : Heap) : Nat × Heap :=
  (h.nextId, ⟨h.nextId + 1, fun i => if i = h.nextId then [] else h.contents i⟩)

/-- Assign a field on an existing instance. -/
def setField (h : Heap) (id : Nat) (field val : String) : Heap :=
  ⟨h.nextId, fun i => if i = id then (field, val) :: h.contents i else h.contents i⟩

/-- What a dynamic member access yields: a reference to a freshly created
structure instance, a callable bound to a remote operation, or a fall-through
to the statically defined class attribute of that name. -/
inductive DynValue where
  | instRef (id : Nat)
  | operation (name : String)
  | staticAttr (name : String)
deriving DecidableEq, Repr

/-- `Client.__getattribute__(name)`: unless the name is one of the two
reserved list names, a name among the SOAP types yields a fresh instance from
the factory, a name among the SOAP methods yields the bound service method,
and anything else falls through to the ordinary class attribute lookup. -/
def getattribute (suds_types suds_methods : List String) (name : String)
    (h : Heap) : DynValue × Heap :=
  if (name ≠ "suds_types" ∧ name ≠ "suds_methods") ∧ name ∈ suds_types then
    let c := factoryCreate h
    (DynValue.instRef c.1, c.2)
  else if (name ≠ "suds_types" ∧ name ≠ "suds_methods") ∧ name ∈ suds_methods then
    (DynValue.operation name, h)
  else
    (DynValue.staticAttr name, h)

/-! ### Construction and the class-level lists (`Client.__init__`) -/

/-- The service description fetched from the WSDL: type names and operation
names. -/
structure ServiceDescription where
  types : List String
  operations : List String
deriving DecidableEq, Repr

/-- The class-level lists `Client.suds_types` and `Client.suds_methods`,
shared by every instance of the class. -/
structure ClassState where
  suds_types : List String
  suds_methods : List String
deriving DecidableEq, Repr

/-- The per-instance attributes assigned in `Client.__init__`. -/
structure ClientInstance where
  soap_endpoint : String
  user_id : List Nat
  encryption_key : List Nat
deriving DecidableEq, Repr

/-- `Client.__init__`: store the endpoint and credentials on the instance,
then append every type name and every operation name of the fetched service
description onto the class-level lists. -/
def clientInit (cs : ClassState) (sd : ServiceDescription)
    (soap_endpoint : String) (user_id encryption_key : List Nat) :
    ClientInstance × ClassState :=
  (⟨soap_endpoint, user_id, encryption_key⟩,
   ⟨sd.types.foldl (fun l t => l ++ [t]) cs.suds_types,
    sd.operations.foldl (fun l m => l ++ [m]) cs.suds_methods⟩)

/-! ### Lead records (`build_lead_record`, `sync_lead`) -/

/-- A LeadRecord as `build_lead_record` fills it: the email and the attribute
list of (attrName, attrType, attrValue) triples. -/
structure LeadRecordS where
  Email : String
  leadAttributeList : List (String × String × String)
deriving DecidableEq, Repr

/-- `Client.build_lead_record`: set the email, then append one Attribute per
input triple to a fresh attribute list. -/
def build_lead_record (email : String)
    (attributes : List (String × String × String)) : LeadRecordS :=
  ⟨email, attributes.foldl (fun acc attr => acc ++ [attr]) []⟩

structure SyncLeadDispatch where
  operation : String
  record : LeadRecordS
  returnLead : Bool
deriving DecidableEq, Repr

/-- `Client.sync_lead`: build the lead record, then dispatch `syncLead` with
it and the return flag. -/
def sync_lead (email : String) (attributes : List (String × String × String))
    (return_lead : Bool) : SyncLeadDispatch :=
  ⟨"syncLead", build_lead_record email attributes, return_lead⟩

/-! ### Lead keys (`get_lead`) -/

inductive LeadKeyRef where
  | EMAIL
  | COOKIE
  | IDNUM
deriving DecidableEq, Repr

/-- A value stored in a LeadKey's keyType field: either one of the WSDL
enumeration members (`self.LeadKeyRef.EMAIL` and friends) or a bare string
literal such as `'COOKIE'` (as `get_lead_activity` assigns). -/
inductive KeyTypeVal where
  | ref (r : LeadKeyRef)
  | str (s : String)
deriving DecidableEq, Repr

structure LeadKeyS where
  keyType : Option KeyTypeVal
  keyValue : String
deriving DecidableEq, Repr

structure GetLeadDispatch where
  operation : String
  leadKey : LeadKeyS
deriving DecidableEq, Repr

/-- `Client.get_lead`: three successive `if` statements set the key type for
`'Email'`, `'Cookie'` and `'IDNUM'` (an unrecognized key type string leaves it
unset), then the key value is set and `getLead` is dispatched. -/
def get_lead (keyValue keyType : String) : GetLeadDispatch :=
  let kt1 : Option KeyTypeVal :=
    if keyType = "Email" then some (KeyTypeVal.ref LeadKeyRef.EMAIL) else none
  let kt2 := if keyType = "Cookie" then some (KeyTypeVal.ref LeadKeyRef.COOKIE) else kt1
  let kt3 := if keyType = "IDNUM" then some (KeyTypeVal.ref LeadKeyRef.IDNUM) else kt2
  ⟨"getLead", ⟨kt3, keyValue⟩⟩

/-! ### merge_leads -/

/-- The local Python errors the wrapper can raise before any remote call. -/
inductive PyError where
  | attributeError
  | nameError
  | typeError
  | indexError
deriving DecidableEq, Repr

/-- Whether `self.__getattribute__(name)` yields a usable structure instance:
true exactly when the dynamic lookup resolves the name as a SOAP type.  When
false, building a structure under that name raises (an AttributeError from the
static fall-through, since none of these names is a static class attribute). -/
def structCreatable (suds_types : List String) (name : String) : Prop :=
  (name ≠ "suds_types" ∧ name ≠ "suds_methods") ∧ name ∈ suds_types

instance (suds_types : List String) (name : String) :
    Decidable (structCreatable suds_types name) := by
  unfold structCreatable; infer_instance

/-- The payload `mergeLeads` is dispatched with: the winning key list of
(attrName, attrValue) pairs, and the losing key list of such lists. -/
structure MergeDispatch where
  winningKeyList : List (String × String)
  losingKeyList : List (List (String × String))
deriving DecidableEq, Repr

/-- `Client.merge_leads`: the winning Attribute and ArrayOfAttribute are built
OUTSIDE any handler, so a failure there propagates.  The losing side sits in a
`try: ... except: pass`: a failure there is swallowed, but when it struck
before `losing_lead_key_list` was bound, the dispatch line itself then raises
a NameError.  When the swallowed failure struck after the binding but before
the appends, dispatch proceeds with an empty losing key list. -/
def merge_leads (suds_types : List String)
    (winningleadIDnum losingleadsIDnum : String) : Except PyError MergeDispatch :=
  if structCreatable suds_types "Attribute" then
    let win := ("IDNUM", winningleadIDnum)
    if structCreatable suds_types "ArrayOfAttribute" then
      let winning_lead_key_list := [win]
      let losingBound : Option (List (List (String × String))) :=
        if structCreatable suds_types "Attribute" then
          let lose := ("IDNUM", losingleadsIDnum)
          if structCreatable suds_types "ArrayOfKeyList" then
            if structCreatable suds_types "ArrayOfAttribute" then
              some [[lose]]
            else some []
          else none
        else none
      match losingBound with
      | some losing => Except.ok ⟨winning_lead_key_list, losing⟩
      | none => Except.error PyError.nameError
    else Except.error PyError.attributeError
  else Except.error PyError.attributeError

/-! ### get_lead_activity -/

/-- Outcome of `get_lead_activity`: the literal `True` success marker, or a
dispatch of `getLeadActivity` with the built lead key and activity type
filter (its `includeTypes.activityType` token list). -/
inductive ActivityResult where
  | success
  | dispatch (leadKey : LeadKeyS) (includeTypes : List String)
deriving DecidableEq, Repr

/-- `Client.get_lead_activity`: four `if` statements choose the key type
string, the key value is set to the cookie, then an `if/elif` chain appends
the activity tokens for the four known categories and dispatches; any other
category returns `True` without reaching the dispatch. -/
def get_lead_activity (cookie : String) (acttype : Option String) : ActivityResult :=
  let kt1 : Option KeyTypeVal :=
    if acttype = some "Email Activity" then some (KeyTypeVal.str "EMAIL") else none
  let kt2 := if acttype = some "Website Activity" then some (KeyTypeVal.str "COOKIE") else kt1
  let kt3 := if acttype = some "Interesting Moments" then some (KeyTypeVal.str "COOKIE") else kt2
  let kt4 := if acttype = some "Score" then some (KeyTypeVal.str "COOKIE") else kt3
  let leadKey : LeadKeyS := ⟨kt4, cookie⟩
  if acttype = some "Website Activity" then
    ActivityResult.dispatch leadKey ["VisitWebpage", "ClickLink", "FillOutForm"]
  else if acttype = some "Email Activity" then
    ActivityResult.dispatch leadKey
      ["SendEmail", "EmailBounced", "UnsubscribeEmail", "OpenEmail",
       "ClickEmail", "OpenSalesEmail", "ClickSalesEmail"]
  else if acttype = some "Score" then
    ActivityResult.dispatch leadKey ["ChangeScore"]
  else if acttype = some "Interesting Moments" then
    ActivityResult.dispatch leadKey ["InterestingMoment"]
  else
    ActivityResult.success

/-! ### sync_m_objects -/

inductive SyncOperation where
  | UPSERT
  | INSERT
  | UPDATE
deriving DecidableEq, Repr

/-- The `operation` variable after the three `if` statements: either rebound
to a member of the SyncOperationEnum, or left as the original string. -/
inductive OperationVal where
  | raw (s : String)
  | enum (op : SyncOperation)
deriving DecidableEq, Repr

/-- The three successive `if operation == ...` statements of
`sync_custom_objects` and `sync_m_objects`; after the first match the
variable holds an enum member, so the later string comparisons are false. -/
def mapOperation (op : String) : OperationVal :=
  if op = "UPSERT" then OperationVal.enum SyncOperation.UPSERT
  else if op = "INSERT" then OperationVal.enum SyncOperation.INSERT
  else if op = "UPDATE" then OperationVal.enum SyncOperation.UPDATE
  else OperationVal.raw op

/-- An MObject as `sync_m_objects` fills it. -/
structure MObjectS where
  mtype : Option String
  id : Option String
  createdAt : Option String
  updatedAt : Option String
  attribList : List (String × String)
deriving DecidableEq, Repr

structure SyncMDispatch where
  mObjectList : List MObjectS
  operation : OperationVal
deriving DecidableEq, Repr

def emptyMObject : MObjectS := ⟨none, none, none, none, []⟩

/-- `Client.sync_m_objects`: map the operation string to the enum, then for
`'Opportunity'` fill the MObject (with the hard-coded timestamps; when the
opportunity does not exist yet, append one Attrib per `oppinfo` pair) and for
`'OpportunityPersonRole'` fill type and attributes; dispatch `syncMObjects`
with the MObject list and the operation. -/
def sync_m_objects (operation objType : String) (oppinfo : List (String × String))
    (existsFlag : Bool) (idnum : Option String) : SyncMDispatch :=
  let op := mapOperation operation
  if objType = "Opportunity" then
    let m :=
      if existsFlag then
        { emptyMObject with
            mtype := some "Opportunity"
            id := idnum
            createdAt := some "2014-01-27T12:38:44-05:00"
            updatedAt := some "2014-01-31T12:38:44-05:00" }
      else
        { emptyMObject with
            mtype := some "Opportunity"
            createdAt := some "2014-01-27T12:38:44-05:00"
            updatedAt := some "2014-01-31T12:38:44-05:00"
            attribList := oppinfo.foldl (fun acc e => acc ++ [e]) [] }
    ⟨[m], op⟩
  else if objType = "OpportunityPersonRole" then
    ⟨[{ emptyMObject with
          mtype := some "OpportunityPersonRole"
          attribList := oppinfo.foldl (fun acc e => acc ++ [e]) [] }], op⟩
  else
    ⟨[], op⟩

/-! ### request_campaign -/

structure ReqCampDispatch where
  source : String
  campaignId : Option Int
  leadKeys : List LeadKeyS
  programName : Option String
  campaignName : Option String
  programTokenList : List (String × String)
deriving DecidableEq, Repr

/-- `Client.request_campaign`: after defaulting the source, the code reads
`program_token_list[0]` and `program_token_list[1]` unconditionally; with the
default `None` this raises a TypeError, and with fewer than two elements an
IndexError, before any remote call.  Otherwise the lead keys are built and
`requestCampaign` is dispatched with the token pair as the single attribute
of the token list. -/
def request_campaign (source : Option String) (campaign_id : Option Int)
    (lead_list : List (String × String)) (program_name campaign_name : Option String)
    (program_token_list : Option (List String)) : Except PyError ReqCampDispatch :=
  let src := source.getD "MKTOWS"
  match program_token_list with
  | none => Except.error PyError.typeError
  | some ptl =>
    match ptl with
    | [] => Except.error PyError.indexError
    | [_] => Except.error PyError.indexError
    | t0 :: t1 :: _ =>
      let leadKeys := lead_list.foldl
        (fun acc lead => acc ++ [LeadKeyS.mk (some (KeyTypeVal.str lead.1)) lead.2]) []
      Except.ok ⟨src, campaign_id, leadKeys, program_name, campaign_name, [(t0, t1)]⟩

/-! ### Helper lemmas -/

/-- Appending elements one at a time, as the Python `for ... append` loops do,
amounts to list concatenation. -/
theorem foldl_append_eq {α : Type} (l init : List α) :
    l.foldl (fun a x => a ++ [x]) init = init ++ l := by
  induction l generalizing init with
  | nil => simp
  | cons x t ih => rw [List.foldl_cons, ih]; simp

/-- Lowercasing fixes the two hex characters of a byte. -/
theorem map_toLower_byteToHex (b : Nat) :
    (byteToHex b).map Char.toLower = byteToHex b := by
  have key : ∀ m, m < 16 →
      Char.toLower (hexDigitChars.getD m '0') = hexDigitChars.getD m '0' := by decide
  have h1 : b / 16 % 16 < 16 := Nat.mod_lt _ (by norm_num)
  have h2 : b % 16 < 16 := Nat.mod_lt _ (by norm_num)
  simp only [byteToHex, List.map_cons, List.map_nil]
  rw [key _ h1, key _ h2]

/-- Lowercasing fixes a hex digest, which is already lowercase. -/
theorem map_toLower_hexdigest (bs : List Nat) :
    (hexdigest bs).map Char.toLower = hexdigest bs := by
  induction bs with
  | nil => rfl
  | cons b t ih =>
    show (byteToHex b ++ hexdigest t).map Char.toLower = byteToHex b ++ hexdigest t
    rw [List.map_append, map_toLower_byteToHex, ih]

/-- Every character of a hex digest is a lowercase hexadecimal digit. -/
theorem hexdigest_all_hex (bs : List Nat) :
    (hexdigest bs).all (fun c => hexDigitChars.contains c) = true := by
  induction bs with
  | nil => rfl
  | cons b t ih =>
    have key : ∀ m, m < 16 →
        hexDigitChars.contains (hexDigitChars.getD m '0') = true := by decide
    have h1 : b / 16 % 16 < 16 := Nat.mod_lt _ (by norm_num)
    have h2 : b % 16 < 16 := Nat.mod_lt _ (by norm_num)
    show (byteToHex b ++ hexdigest t).all _ = true
    rw [List.all_append, ih]
    simp only [byteToHex, List.all_cons, List.all_nil]
    rw [key _ h1, key _ h2]
    rfl

/-- Sanity check of the SHA-1 embedding against the standard test vector. -/
theorem sha1_vector_abc :
    (hexdigest (sha1 [97, 98, 99])).asString =
      "a9993e364706816aba3e25717850c26c9cd0d89d" := by decide

/-- Sanity check of the HMAC-SHA1 embedding against RFC 2202 test case 2. -/
theorem hmac_sha1_vector_jefe :
    (hexdigest (hmac_sha1 [74, 101, 102, 101]
      [119, 104, 97, 116, 32, 100, 111, 32, 121, 97, 32, 119, 97, 110, 116, 32,
       102, 111, 114, 32, 110, 111, 116, 104, 105, 110, 103, 63])).asString =
      "effcdf6ae5eb2fa2d27416d5f184df9c259a7c79" := by decide

/-! ### Claim theorems -/

/-- C1: for every timestamp string T, user id U and shared secret K, the
request signature `set_header` attaches equals the lowercase hexadecimal
HMAC-SHA1 digest of T ++ U keyed by K (every character of it is a lowercase
hex digit), and recomputing `sign` on equal inputs yields the same result. -/
theorem c1_signature_hmac (T U K T' U' K' : List Nat)
    (hT : T = T') (hU : U = U') (hK : K = K') :
    (set_header T U K).requestSignature = hexdigest (hmac_sha1 K (T ++ U)) ∧
    ((set_header T U K).requestSignature).all (fun c => hexDigitChars.contains c) = true ∧
    sign (T ++ U) K = sign (T' ++ U') K' := by
  subst hT; subst hU; subst hK
  have h1 : (set_header T U K).requestSignature = hexdigest (hmac_sha1 K (T ++ U)) :=
    map_toLower_hexdigest _
  refine ⟨h1, ?_, rfl⟩
  rw [h1]
  exact hexdigest_all_hex _

/-- Witness for C1 at concrete one-byte inputs. -/
theorem c1_signature_hmac_witness :
    (set_header [49] [50] [51]).requestSignature =
      hexdigest (hmac_sha1 [51] ([49] ++ [50])) ∧
    ((set_header [49] [50] [51]).requestSignature).all
      (fun c => hexDigitChars.contains c) = true ∧
    sign ([49] ++ [50]) [51] = sign ([49] ++ [50]) [51] :=
  c1_signature_hmac [49] [50] [51] [49] [50] [51] rfl rfl rfl

/-- C2 (counterexample): the claimed priority order fails at the reserved
name "suds_types": even when it is among the known structured-type names, the
lookup falls through to the static class attribute instead of returning a
fresh instance. -/
theorem c2_counterexample :
    ("suds_types" ∈ (["suds_types"] : List String)) ∧
    (getattribute ["suds_types"] [] "suds_types" emptyHeap).1 =
      DynValue.staticAttr "suds_types" := by
  constructor
  · decide
  · decide

/-- C2 (amended): for every attribute name other than the two reserved names
"suds_types" and "suds_methods", member lookup resolves in the claimed
priority order, namely fresh structure instance, then bound remote operation,
then static class attribute; the two reserved names always resolve to the
static class attribute, even when they occur in the type or method lists. -/
theorem c2_resolution_order (types methods : List String) (name : String) (hp : Heap) :
    (name ≠ "suds_types" → name ≠ "suds_methods" →
      ((name ∈ types →
          (getattribute types methods name hp).1 = DynValue.instRef hp.nextId ∧
          (getattribute types methods name hp).2.contents hp.nextId = []) ∧
       (name ∉ types → name ∈ methods →
          getattribute types methods name hp = (DynValue.operation name, hp)) ∧
       (name ∉ types → name ∉ methods →
          getattribute types methods name hp = (DynValue.staticAttr name, hp)))) ∧
    (name = "suds_types" ∨ name = "suds_methods" →
      getattribute types methods name hp = (DynValue.staticAttr name, hp)) := by
  constructor
  · intro h1 h2
    refine ⟨?_, ?_, ?_⟩
    · intro hmem
      unfold getattribute
      rw [if_pos ⟨⟨h1, h2⟩, hmem⟩]
      exact ⟨rfl, by simp [factoryCreate]⟩
    · intro hnt hm
      unfold getattribute
      rw [if_neg (fun hc => hnt hc.2), if_pos ⟨⟨h1, h2⟩, hm⟩]
    · intro hnt hnm
      unfold getattribute
      rw [if_neg (fun hc => hnt hc.2), if_neg (fun hc => hnm hc.2)]
  · intro hres
    unfold getattribute
    rcases hres with h | h
    · rw [if_neg (fun hc => hc.1.1 h), if_neg (fun hc => hc.1.1 h)]
    · rw [if_neg (fun hc => hc.1.2 h), if_neg (fun hc => hc.1.2 h)]

/-- Witness for C2 at concrete inputs: the name "LeadRecord" among the types
resolves to a fresh instance, and the reserved name "suds_types" resolves
statically. -/
theorem c2_resolution_order_witness :
    ((getattribute ["LeadRecord"] ["getLead"] "LeadRecord" emptyHeap).1 =
        DynValue.instRef emptyHeap.nextId ∧
      (getattribute ["LeadRecord"] ["getLead"] "LeadRecord" emptyHeap).2.contents
        emptyHeap.nextId = []) ∧
    getattribute ["LeadRecord"] ["getLead"] "suds_types" emptyHeap =
      (DynValue.staticAttr "suds_types", emptyHeap) :=
  ⟨((c2_resolution_order ["LeadRecord"] ["getLead"] "LeadRecord" emptyHeap).1
      (by decide) (by decide)).1 (by decide),
   (c2_resolution_order ["LeadRecord"] ["getLead"] "suds_types" emptyHeap).2
      (Or.inl rfl)⟩

/-- C3 (counterexample): when the Attribute structure type is unavailable
(here, an empty type list), building the winning key list raises and the
error propagates out of merge_leads instead of being swallowed; the mergeLeads
dispatch does not proceed. -/
theorem c3_counterexample :
    merge_leads [] "1" "2" = Except.error PyError.attributeError := by
  unfold merge_leads
  rw [if_neg (fun hc => List.not_mem_nil _ hc.2)]

/-- C3 (amended): only errors raised inside the try block around the
losing-side construction are swallowed.  An error constructing the winning
Attribute or ArrayOfAttribute propagates to the caller; when the swallowed
losing-side error struck before the losing key list was bound, the dispatch
line itself raises a name error; only when every needed structure type is
available does the mergeLeads dispatch proceed. -/
theorem c3_merge_leads (types : List String) (w l : String) :
    (("Attribute" : String) ∉ types →
      merge_leads types w l = Except.error PyError.attributeError) ∧
    (("Attribute" : String) ∈ types → ("ArrayOfAttribute" : String) ∉ types →
      merge_leads types w l = Except.error PyError.attributeError) ∧
    (("Attribute" : String) ∈ types → ("ArrayOfAttribute" : String) ∈ types →
      ("ArrayOfKeyList" : String) ∉ types →
      merge_leads types w l = Except.error PyError.nameError) ∧
    (("Attribute" : String) ∈ types → ("ArrayOfAttribute" : String) ∈ types →
      ("ArrayOfKeyList" : String) ∈ types →
      merge_leads types w l = Except.ok ⟨[("IDNUM", w)], [[("IDNUM", l)]]⟩) := by
  refine ⟨?_, ?_, ?_, ?_⟩
  · intro hA
    unfold merge_leads
    rw [if_neg (fun hc => hA hc.2)]
  · intro hA hAA
    unfold merge_leads
    rw [if_pos ⟨⟨by decide, by decide⟩, hA⟩, if_neg (fun hc => hAA hc.2)]
  · intro hA hAA hK
    unfold merge_leads
    rw [if_pos ⟨⟨by decide, by decide⟩, hA⟩, if_pos ⟨⟨by decide, by decide⟩, hAA⟩,
        if_pos ⟨⟨by decide, by decide⟩, hA⟩, if_neg (fun hc => hK hc.2)]
  · intro hA hAA hK
    unfold merge_leads
    rw [if_pos ⟨⟨by decide, by decide⟩, hA⟩, if_pos ⟨⟨by decide, by decide⟩, hAA⟩,
        if_pos ⟨⟨by decide, by decide⟩, hA⟩, if_pos ⟨⟨by decide, by decide⟩, hK⟩,
        if_pos ⟨⟨by decide, by decide⟩, hAA⟩]

/-- Witness for C3: with all three structure types available dispatch
proceeds, and with ArrayOfKeyList missing the swallowed error resurfaces as a
name error. -/
theorem c3_merge_leads_witness :
    merge_leads ["Attribute", "ArrayOfAttribute", "ArrayOfKeyList"] "1" "2" =
      Except.ok ⟨[("IDNUM", "1")], [[("IDNUM", "2")]]⟩ ∧
    merge_leads ["Attribute", "ArrayOfAttribute"] "1" "2" =
      Except.error PyError.nameError :=
  ⟨(c3_merge_leads ["Attribute", "ArrayOfAttribute", "ArrayOfKeyList"] "1" "2").2.2.2
      (by decide) (by decide) (by decide),
   (c3_merge_leads ["Attribute", "ArrayOfAttribute"] "1" "2").2.2.1
      (by decide) (by decide) (by decide)⟩

/-- C4: get_lead_activity with category "Score" dispatches getLeadActivity
with an activity filter holding exactly the token "ChangeScore" (and the lead
key set to the cookie with the 'COOKIE' key type string), and any category
outside the fixed four-entry table returns the literal success marker without
dispatching any remote operation. -/
theorem c4_lead_activity (cookie : String) (a : Option String)
    (ha : a ∉ [some "Website Activity", some "Email Activity",
               some "Score", some "Interesting Moments"]) :
    get_lead_activity cookie (some "Score") =
      ActivityResult.dispatch ⟨some (KeyTypeVal.str "COOKIE"), cookie⟩ ["ChangeScore"] ∧
    get_lead_activity cookie a = ActivityResult.success := by
  constructor
  · simp [get_lead_activity]
  · simp only [List.mem_cons, List.not_mem_nil, or_false, not_or] at ha
    obtain ⟨h1, h2, h3, h4⟩ := ha
    simp [get_lead_activity, h1, h2, h3, h4]

/-- Witness for C4 at the unknown category "Personal Information" and at a
missing category. -/
theorem c4_lead_activity_witness :
    get_lead_activity "ck" (some "Score") =
      ActivityResult.dispatch ⟨some (KeyTypeVal.str "COOKIE"), "ck"⟩ ["ChangeScore"] ∧
    get_lead_activity "ck" (some "Personal Information") = ActivityResult.success :=
  c4_lead_activity "ck" (some "Personal Information") (by decide)

/-- C5 (counterexample): the claim fails for a reserved name among the known
structured-type names: with "suds_types" in the type list, neither the first
nor a second member access for that name returns a structure instance at all;
both fall through to the same static class attribute, so no fresh, independent,
empty instance is ever produced. -/
theorem c5_counterexample :
    ("suds_types" ∈ (["suds_types"] : List String)) ∧
    (getattribute ["suds_types"] [] "suds_types" emptyHeap).1 =
      DynValue.staticAttr "suds_types" ∧
    (getattribute ["suds_types"] [] "suds_types"
        (getattribute ["suds_types"] [] "suds_types" emptyHeap).2).1 =
      DynValue.staticAttr "suds_types" := by
  refine ⟨by decide, by decide, by decide⟩

/-- C5 (amended): for every known structured-type name other than the
reserved names "suds_types" and "suds_methods", requesting the name twice
yields two distinct freshly allocated empty instances, and mutating a field
of the first leaves the second empty. -/
theorem c5_fresh_instances (types methods : List String) (name : String) (hp : Heap)
    (hn1 : name ≠ "suds_types") (hn2 : name ≠ "suds_methods") (hmem : name ∈ types) :
    ∃ i1 i2 h1 h2,
      getattribute types methods name hp = (DynValue.instRef i1, h1) ∧
      getattribute types methods name h1 = (DynValue.instRef i2, h2) ∧
      i1 ≠ i2 ∧
      h2.contents i1 = [] ∧
      h2.contents i2 = [] ∧
      ∀ f v, (setField h2 i1 f v).contents i2 = [] := by
  refine ⟨hp.nextId, hp.nextId + 1, (factoryCreate hp).2, (factoryCreate (factoryCreate hp).2).2,
          ?_, ?_, by omega, ?_, ?_, ?_⟩
  · unfold getattribute
    rw [if_pos ⟨⟨hn1, hn2⟩, hmem⟩]
    rfl
  · unfold getattribute
    rw [if_pos ⟨⟨hn1, hn2⟩, hmem⟩]
    simp only [factoryCreate]
  · simp [factoryCreate]
  · simp [factoryCreate]
  · intro f v
    simp [factoryCreate, setField]

/-- Witness for C5 at the concrete type name "LeadRecord" on the empty heap. -/
theorem c5_fresh_instances_witness :
    ∃ i1 i2 h1 h2,
      getattribute ["LeadRecord"] ["getLead"] "LeadRecord" emptyHeap =
        (DynValue.instRef i1, h1) ∧
      getattribute ["LeadRecord"] ["getLead"] "LeadRecord" h1 =
        (DynValue.instRef i2, h2) ∧
      i1 ≠ i2 ∧
      h2.contents i1 = [] ∧
      h2.contents i2 = [] ∧
      ∀ f v, (setField h2 i1 f v).contents i2 = [] :=
  c5_fresh_instances ["LeadRecord"] ["getLead"] "LeadRecord" emptyHeap
    (by decide) (by decide) (by decide)

/-- C6 (counterexample): constructing a second facade appends the (same)
service description onto the class-level lists again, so the cached lists an
existing instance sees change: after the first construction they hold one
copy of the names, after the second construction two. -/
theorem c6_counterexample :
    (clientInit ⟨[], []⟩ ⟨["LeadRecord"], ["getLead"]⟩ "e" [] []).2 =
      ⟨["LeadRecord"], ["getLead"]⟩ ∧
    (clientInit (clientInit ⟨[], []⟩ ⟨["LeadRecord"], ["getLead"]⟩ "e" [] []).2
        ⟨["LeadRecord"], ["getLead"]⟩ "e" [] []).2 =
      ⟨["LeadRecord", "LeadRecord"], ["getLead", "getLead"]⟩ ∧
    (⟨["LeadRecord", "LeadRecord"], ["getLead", "getLead"]⟩ : ClassState) ≠
      ⟨["LeadRecord"], ["getLead"]⟩ := by
  refine ⟨by decide, by decide, by decide⟩

/-- C6 (amended): the credentials are stored per instance at construction,
but the cached type and method name lists are class-level shared state:
constructing another facade appends that construction's discovered names to
them, so whenever the new description is nonempty the shared lists mutate. -/
theorem c6_shared_class_lists (cs : ClassState) (sd : ServiceDescription)
    (e : String) (u k : List Nat) (hne : sd.types ≠ []) :
    (clientInit cs sd e u k).1 = ⟨e, u, k⟩ ∧
    (clientInit cs sd e u k).2.suds_types = cs.suds_types ++ sd.types ∧
    (clientInit cs sd e u k).2.suds_methods = cs.suds_methods ++ sd.operations ∧
    (clientInit cs sd e u k).2.suds_types ≠ cs.suds_types := by
  refine ⟨rfl, foldl_append_eq _ _, foldl_append_eq _ _, ?_⟩
  rw [show (clientInit cs sd e u k).2.suds_types = cs.suds_types ++ sd.types from
        foldl_append_eq _ _]
  intro heq
  have hlen := congrArg List.length heq
  simp only [List.length_append] at hlen
  exact hne (List.eq_nil_of_length_eq_zero (by omega))

/-- Witness for C6 at a concrete nonempty service description. -/
theorem c6_shared_class_lists_witness :
    (clientInit ⟨[], []⟩ ⟨["LeadRecord"], ["getLead"]⟩ "e" [] []).1 = ⟨"e", [], []⟩ ∧
    (clientInit ⟨[], []⟩ ⟨["LeadRecord"], ["getLead"]⟩ "e" [] []).2.suds_types =
      [] ++ ["LeadRecord"] ∧
    (clientInit ⟨[], []⟩ ⟨["LeadRecord"], ["getLead"]⟩ "e" [] []).2.suds_methods =
      [] ++ ["getLead"] ∧
    (clientInit ⟨[], []⟩ ⟨["LeadRecord"], ["getLead"]⟩ "e" [] []).2.suds_types ≠ [] :=
  c6_shared_class_lists ⟨[], []⟩ ⟨["LeadRecord"], ["getLead"]⟩ "e" [] [] (by decide)

/-- C7: sync_lead with email "a@b.com" and the single triple
("FirstName", "string", "Bob") builds a lead record carrying that email and
exactly that one triple; in general the built record's attribute list is the
input triple list, in input order. -/
theorem c7_lead_record (email : String)
    (attributes : List (String × String × String)) (r : Bool) :
    sync_lead "a@b.com" [("FirstName", "string", "Bob")] r =
      ⟨"syncLead", ⟨"a@b.com", [("FirstName", "string", "Bob")]⟩, r⟩ ∧
    (build_lead_record email attributes).Email = email ∧
    (build_lead_record email attributes).leadAttributeList = attributes := by
  refine ⟨rfl, rfl, ?_⟩
  show attributes.foldl (fun acc attr => acc ++ [attr]) [] = attributes
  rw [foldl_append_eq]
  rfl

/-- C8: sync_m_objects for objType "Opportunity" with exists false builds one
MObject whose attribute list holds one (name, value) pair per oppinfo entry
in input order, and dispatches syncMObjects with it. -/
theorem c8_sync_m_objects (operation : String) (oppinfo : List (String × String))
    (idnum : Option String) :
    sync_m_objects operation "Opportunity" oppinfo false idnum =
      ⟨[⟨some "Opportunity", none, some "2014-01-27T12:38:44-05:00",
         some "2014-01-31T12:38:44-05:00", oppinfo⟩], mapOperation operation⟩ := by
  simp only [sync_m_objects, emptyMObject, if_true, if_pos, reduceIte,
    Bool.false_eq_true, foldl_append_eq, List.nil_append]

/-- C9: get_lead with key value "a@b.com" and key type "Email" builds a lead
key whose key type is the EMAIL enumeration member and whose key value is
"a@b.com", and dispatches getLead with that structure. -/
theorem c9_get_lead :
    get_lead "a@b.com" "Email" =
      ⟨"getLead", ⟨some (KeyTypeVal.ref LeadKeyRef.EMAIL), "a@b.com"⟩⟩ := by
  decide

/-- C10: request_campaign reads the first two program tokens before any
dispatch: with the default missing token list it raises a type error, with
fewer than two tokens an index error (in both cases no remote operation is
dispatched), and on success the dispatched token list is exactly the first
two tokens as one attribute pair. -/
theorem c10_request_campaign (src : Option String) (cid : Option Int)
    (ll : List (String × String)) (pn cn : Option String) (ptl : List String)
    (t0 t1 : String) (rest : List String) (hlen : ptl.length < 2) :
    request_campaign src cid ll pn cn none = Except.error PyError.typeError ∧
    request_campaign src cid ll pn cn (some ptl) = Except.error PyError.indexError ∧
    (request_campaign src cid ll pn cn (some (t0 :: t1 :: rest))).map
      ReqCampDispatch.programTokenList = Except.ok [(t0, t1)] := by
  refine ⟨rfl, ?_, rfl⟩
  match ptl, hlen with
  | [], _ => rfl
  | [_], _ => rfl

/-- Witness for C10 at a concrete one-token list. -/
theorem c10_request_campaign_witness :
    request_campaign none none [] none none none = Except.error PyError.typeError ∧
    request_campaign none none [] none none (some ["tok"]) =
      Except.error PyError.indexError ∧
    (request_campaign none none [] none none (some ["t0", "t1"])).map
      ReqCampDispatch.programTokenList = Except.ok [("t0", "t1")] :=
  c10_request_campaign none none [] none none ["tok"] "t0" "t1" [] (by decide)

end SudsMarketo
